import Mathlib

/-!
Verification of the mhc-backend wellness API (Express + Firestore + Gemini).

This file is a shallow embedding, in Lean 4, of the request handlers and pure
helpers of the repository that the verified properties talk about:

* the crisis classifiers (`detectCrisis` in the three snapshots of
  `src/routes/generate.js`, and the keyword classifier of `src/unnamed/part_002`);
* the chat route `router.post('/')` of `src/routes/generate.js`;
* the session-token middleware `verifyToken` (`src/routes/post.js`,
  `src/routes/generate.js`);
* the like / delete-comment handlers of `src/routes/post.js`;
* the batched bulk delete of `src/unnamed/part_001` (`DELETE /conversations`);
* the context assembler `fetchUserContext` and the summariser
  `updateUserSummary` of `src/routes/generate.js`;
* the journal-entry creation handler of `src/unnamed/part_000`.

Conventions of the embedding:

* JavaScript strings are Lean `String`s; character-level work is done on
  `String.toList` so that every function reduces inside the kernel.
  `toLowerCase` is modelled on the ASCII range (all crisis phrases are ASCII);
  the regex word class `\w` is exactly `[A-Za-z0-9_]`, as in JavaScript.
* A missing (`undefined`) string field is modelled by `""` when the source
  only tests it for truthiness, and by `Option` when the distinction matters.
* The Firestore document store is modelled by explicit values: a post document,
  a list of `(docId, moodEntry)` pairs in default (document id) order, or a map
  `String → Option UserDoc`.  External services (the Gemini completion call,
  base64 decoding by `Buffer`, `Date.now()`) are parameters of the functions
  that use them.
* A handler is a pure function from the request plus those parameters to a
  record of everything observable: the HTTP status, the JSON body fields, and
  which side effects (completion call, conversation log, summary update) were
  performed.
-/

namespace MHC

set_option maxRecDepth 4000

/-! ## Character and string utilities (kernel-reducible) -/

/-- ASCII lower-casing, the fragment of `String.prototype.toLowerCase` /
regex flag `i` relevant to the ASCII crisis-phrase lists. -/
def lowerChar (c : Char) : Char :=
  if 65 ≤ c.toNat ∧ c.toNat ≤ 90 then Char.ofNat (c.toNat + 32) else c

/-- The JavaScript regex word class `\w`, i.e. `[A-Za-z0-9_]`. -/
def isWordChar (c : Char) : Bool :=
  (65 ≤ c.toNat && c.toNat ≤ 90) || (97 ≤ c.toNat && c.toNat ≤ 122) ||
  (48 ≤ c.toNat && c.toNat ≤ 57) || c = '_'

/-- Lexicographic `≤` on character lists, by code point.  This embeds the
string comparison performed by `String.prototype.localeCompare` on the ISO
date / timestamp strings stored in mood entries (for ASCII strings of this
shape the locale order coincides with code-point order). -/
def listLe : List Char → List Char → Bool
  | [], _ => true
  | _ :: _, [] => false
  | a :: as, b :: bs =>
    if a.toNat < b.toNat then true
    else if b.toNat < a.toNat then false
    else listLe as bs

theorem listLe_cons_iff (x y : Char) (xs ys : List Char) :
    listLe (x :: xs) (y :: ys) = true ↔
      x.toNat < y.toNat ∨ (x.toNat = y.toNat ∧ listLe xs ys = true) := by
  simp only [listLe]
  by_cases h1 : x.toNat < y.toNat
  · simp [h1]
  · by_cases h2 : y.toNat < x.toNat
    · simp only [if_neg h1, if_pos h2]
      constructor
      · intro h; exact Bool.noConfusion h
      · rintro (h | ⟨h, -⟩) <;> omega
    · have h3 : x.toNat = y.toNat := by omega
      simp [h1, h2, h3]

theorem listLe_total : ∀ a b : List Char, listLe a b = true ∨ listLe b a = true := by
  intro a
  induction a with
  | nil => intro b; left; rfl
  | cons x xs ih =>
    intro b
    cases b with
    | nil => right; rfl
    | cons y ys =>
      rw [listLe_cons_iff, listLe_cons_iff]
      rcases Nat.lt_trichotomy x.toNat y.toNat with h | h | h
      · exact Or.inl (Or.inl h)
      · rcases ih ys with h2 | h2
        · exact Or.inl (Or.inr ⟨h, h2⟩)
        · exact Or.inr (Or.inr ⟨h.symm, h2⟩)
      · exact Or.inr (Or.inl h)

theorem listLe_trans :
    ∀ a b c : List Char, listLe a b = true → listLe b c = true → listLe a c = true := by
  intro a
  induction a with
  | nil => intro b c _ _; rfl
  | cons x xs ih =>
    intro b c hab hbc
    cases b with
    | nil => exact Bool.noConfusion hab
    | cons y ys =>
      cases c with
      | nil => exact Bool.noConfusion hbc
      | cons z zs =>
        rw [listLe_cons_iff] at hab hbc ⊢
        rcases hab with h1 | ⟨h1, h1'⟩
        · rcases hbc with h2 | ⟨h2, -⟩
          · exact Or.inl (Nat.lt_trans h1 h2)
          · exact Or.inl (by omega)
        · rcases hbc with h2 | ⟨h2, h2'⟩
          · exact Or.inl (by omega)
          · exact Or.inr ⟨by omega, ih ys zs h1' h2'⟩

/-- Substring containment test (`String.prototype.includes`). -/
def containsSub (m sub : List Char) : Bool :=
  (List.range (m.length + 1)).any (fun i => sub.isPrefixOf (m.drop i))

/-- Split a character list on a separator character
(`String.prototype.split(c)`; always returns at least one segment). -/
def splitOnChar (sep : Char) : List Char → List (List Char)
  | [] => [[]]
  | c :: cs =>
    match splitOnChar sep cs with
    | [] => [[]]
    | h :: t => if c = sep then [] :: h :: t else (c :: h) :: t

/-- Split on a multi-character separator (`String.prototype.split(s)` with a
nonempty separator), implemented with fuel so it reduces in the kernel; the
fuel `cs.length` always suffices because each step consumes at least one
character. -/
def splitOnListAux (sep : List Char) : Nat → List Char → List (List Char)
  | _, [] => [[]]
  | 0, cs => [cs]
  | fuel + 1, c :: cs =>
    if sep.isPrefixOf (c :: cs) then
      [] :: splitOnListAux sep fuel (List.drop (sep.length - 1) cs)
    else
      match splitOnListAux sep fuel cs with
      | [] => [[]]
      | h :: t => (c :: h) :: t

def splitOnList (sep cs : List Char) : List (List Char) :=
  splitOnListAux sep cs.length cs

def isSpaceB (c : Char) : Bool := c = ' ' || c = '\t' || c = '\n' || c = '\r'

def isDigitB (c : Char) : Bool := 48 ≤ c.toNat && c.toNat ≤ 57

def digitsVal (ds : List Char) : Nat :=
  ds.foldl (fun acc c => acc * 10 + (c.toNat - 48)) 0

/-- The fragment of JavaScript `parseInt` exercised by the token code: skip
leading whitespace, optional sign, then the longest decimal-digit prefix;
`none` models the `NaN` result (no digits, or a missing argument).  The
hexadecimal `0x` form and float rounding of very long numerals are not
modelled; token timestamps are plain decimal numerals. -/
def parseIntJS (s : String) : Option Int :=
  match s.toList.dropWhile isSpaceB with
  | '-' :: rest =>
    let ds := rest.takeWhile isDigitB
    if ds.isEmpty then none else some (-(digitsVal ds : Int))
  | '+' :: rest =>
    let ds := rest.takeWhile isDigitB
    if ds.isEmpty then none else some ((digitsVal ds : Int))
  | cs =>
    let ds := cs.takeWhile isDigitB
    if ds.isEmpty then none else some ((digitsVal ds : Int))

/-- `name.split(' ')[0]`, used to take the first name of a user. -/
def firstWord (s : String) : String :=
  String.mk ((splitOnChar ' ' s.toList).headD [])

/-- `String.prototype.trim` (ASCII whitespace fragment). -/
def trimS (s : String) : String :=
  String.mk (((s.toList.dropWhile isSpaceB).reverse.dropWhile isSpaceB).reverse)

/-! ## Crisis classifiers

`src/routes/generate.js` holds three snapshots of the chat route.  The first
(lines 45-48) and third (lines 636-642) test the message against a
case-insensitive regex of the form `\b(p1|p2|...)\b`; `src/unnamed/part_002`
(lines 9-21) instead lower-cases the message and tests `includes` over a
keyword array.  Every alternative in the regexes starts and ends with a `\w`
character, so the `\b` anchors mean exactly: the character before the match
(if any) and the character after the match (if any) are not word characters.
`crisisMatch` embeds that regex semantics; `boundedMatch` is one anchored
occurrence attempt. -/

/-- One anchored match attempt of phrase `p` at offset `i` of (lower-cased)
message `m`: the phrase occurs at `i`, and both ends are at word boundaries. -/
def boundedMatch (m p : List Char) (i : Nat) : Bool :=
  p.isPrefixOf (m.drop i)
  && (decide (i = 0) || !(isWordChar (m.getD (i - 1) ' ')))
  && (decide (m.length ≤ i + p.length) || !(isWordChar (m.getD (i + p.length) ' ')))

/-- `/\b(p1|...|pn)\b/i.test(msg)`: some phrase matches at some offset with
word boundaries on both sides. -/
def crisisMatch (phrases : List String) (msg : String) : Bool :=
  let m := msg.toList.map lowerChar
  (List.range (m.length + 1)).any (fun i =>
    phrases.any (fun p => boundedMatch m (p.toList.map lowerChar) i))

/-- The phrase list of the first `detectCrisis` in `src/routes/generate.js`
(line 46). -/
def crisisPhrasesV1 : List String :=
  ["suicide", "kill myself", "end my life", "not worth living", "self harm",
   "self-harm", "cut myself", "hurt myself", "want to die", "better off dead",
   "no point living", "give up on life", "end it all", "take my life",
   "can't go on"]

/-- The phrase list of the third `detectCrisis` in `src/routes/generate.js`
(line 639); the regex alternative `can'?t go on` is expanded into its two
literal forms. -/
def crisisPhrasesWB : List String :=
  ["suicide", "kill myself", "end my life", "not worth living", "self harm",
   "self-harm", "cut myself", "hurt myself", "want to die", "better off dead",
   "no point living", "give up on life", "end it all", "take my life",
   "self-destruct", "can't go on", "cant go on", "no reason to live",
   "hopeless about life"]

/-- `detectCrisis` of `src/routes/generate.js` lines 45-48 (first snapshot). -/
def detectCrisis (msg : String) : Bool := crisisMatch crisisPhrasesV1 msg

/-- `detectCrisis` of `src/routes/generate.js` lines 636-642 (third snapshot,
the one documented as using word boundaries to avoid false positives). -/
def detectCrisisWB (msg : String) : Bool := crisisMatch crisisPhrasesWB msg

/-- `crisisKeywords` of `src/unnamed/part_002` lines 10-15. -/
def crisisKeywords : List String :=
  ["suicide", "kill myself", "end my life", "not worth living",
   "self harm", "cut myself", "hurt myself", "want to die",
   "better off dead", "no point living", "give up", "hopeless",
   "cant go on", "end it all", "take my life", "self-destruct"]

/-- `detectCrisis` of `src/unnamed/part_002` lines 18-21: plain substring
containment on the lower-cased message, with no word-boundary anchoring. -/
def detectCrisisKeywords (msg : String) : Bool :=
  let lowerMessage := msg.toList.map lowerChar
  crisisKeywords.any (fun k => containsSub lowerMessage k.toList)

/-! ## The chat route `router.post('/')` of `src/routes/generate.js`

The route is modelled as a pure function from the request body and the result
of the external Gemini completion call (`Except Unit String`: `.error` models
a thrown `generateResponse` error) to a record of the observable outcome.
`logConversation` (src/lib/firebase.js lines 26-44) swallows its own errors,
so logging never changes the control flow and is recorded as data.  In the
request body, `userId = 'anonymous'` is the destructuring default, so an
absent field is `none` and the effective id is `getD "anonymous"`. -/

/-- Everything observable about one chat-route invocation: the HTTP status,
the JSON body fields, and which side effects ran. -/
structure ChatOutcome where
  status : Nat
  crisis : Bool
  reply : Option String
  helplines : List (String × String)
  buttons : Bool
  /-- whether `generateResponse` (the external completion call) was invoked -/
  generatorInvoked : Bool
  /-- the `logConversation (userId, message, crisisFlag)` record, if reached -/
  logged : Option (String × String × Bool)
  /-- whether `updateUserSummary` was invoked by the route -/
  summaryInvoked : Bool
  deriving DecidableEq

/-- The fixed crisis reply of the first snapshot (generate.js line 107). -/
def crisisReplyV1 : String :=
  "I'm really glad you told me. Your safety matters deeply, and you're not alone in this. Please reach out to someone you trust or call a crisis helpline immediately."

/-- The fixed crisis reply of the third snapshot (generate.js line 876). -/
def crisisReplyV3 : String :=
  "I'm really concerned about what you're sharing. Your life has deep value, and you don't have to go through this alone. Please reach out to someone you trust or call a crisis helpline immediately."

/-- `activityTriggers` of the first snapshot (generate.js line 135). -/
def activityTriggersV1 : List String :=
  ["breathing", "exercise", "activity", "journal", "relax", "meditation", "try", "coping"]

/-- `activityKeywords` of the third snapshot (generate.js line 925). -/
def activityKeywordsV3 : List String :=
  ["activit", "exercise", "breathing", "meditation", "relaxation", "practice",
   "try", "suggest", "help you"]

/-- `router.post('/')` of `src/routes/generate.js` lines 96-157 (first
snapshot).  An empty `message` models the falsy `!message` check. -/
def handleChatV1 (message : String) (userId? : Option String)
    (llm : Except Unit String) : ChatOutcome :=
  let userId := userId?.getD "anonymous"
  if message = "" then
    { status := 400, crisis := false, reply := none, helplines := [],
      buttons := false, generatorInvoked := false, logged := none,
      summaryInvoked := false }
  else if detectCrisis message then
    { status := 200, crisis := true, reply := some crisisReplyV1,
      helplines := [("india", "1800-599-0019")], buttons := false,
      generatorInvoked := false, logged := some (userId, message, true),
      summaryInvoked := false }
  else
    match llm with
    | .error _ =>
      { status := 500, crisis := false, reply := none, helplines := [],
        buttons := false, generatorInvoked := true, logged := none,
        summaryInvoked := false }
    | .ok aiResponse =>
      { status := 200, crisis := false, reply := some aiResponse,
        helplines := [],
        buttons := activityTriggersV1.any
          (fun k => containsSub (aiResponse.toList.map lowerChar) k.toList),
        generatorInvoked := true, logged := some (userId, message, false),
        summaryInvoked := true }

/-- `router.post('/')` of `src/routes/generate.js` lines 865-962 (third
snapshot); the summary update is guarded by
`if (userId && userId !== 'anonymous')` (line 946). -/
def handleChatV3 (message : String) (userId? : Option String)
    (llm : Except Unit String) : ChatOutcome :=
  let userId := userId?.getD "anonymous"
  if message = "" then
    { status := 400, crisis := false, reply := none, helplines := [],
      buttons := false, generatorInvoked := false, logged := none,
      summaryInvoked := false }
  else if detectCrisisWB message then
    { status := 200, crisis := true, reply := some crisisReplyV3,
      helplines := [("india", "1800-599-0019")], buttons := false,
      generatorInvoked := false, logged := some (userId, message, true),
      summaryInvoked := false }
  else
    match llm with
    | .error _ =>
      { status := 500, crisis := false, reply := none, helplines := [],
        buttons := false, generatorInvoked := true, logged := none,
        summaryInvoked := false }
    | .ok aiResponse =>
      { status := 200, crisis := false, reply := some aiResponse,
        helplines := [],
        buttons := activityKeywordsV3.any
          (fun k => containsSub (aiResponse.toList.map lowerChar) k.toList),
        generatorInvoked := true, logged := some (userId, message, false),
        summaryInvoked := !(userId = "") && !(userId = "anonymous") }

/-! ## User documents and the summariser `updateUserSummary`

`updateUserSummary` (`src/routes/generate.js` lines 1236-1298) is a
fire-and-forget background task.  Its observable effect is the write of the
`wellnessSummary` field of `users/{userId}` (a `set` with `merge: true`),
performed only when the guard at line 1237 passes, the store is available,
and the Gemini call succeeds; every failure is swallowed. -/

/-- A `users/{uid}` document; `""` models a missing string field. -/
structure UserDoc where
  name : String
  wellnessSummary : String
  deriving DecidableEq

/-- `updateUserSummary` as a transformer of the `users` collection.
`llm` is the result of the summarisation call (`.error` models a throw,
which the `catch` swallows); `dbAvailable = false` models `getFirestore`
returning nothing (line 1241). -/
def updateUserSummary (userId : String) (dbAvailable : Bool)
    (llm : Except Unit String) (store : String → Option UserDoc) :
    String → Option UserDoc :=
  if userId = "" ∨ userId = "anonymous" then store
  else if ¬ dbAvailable then store
  else
    match llm with
    | .error _ => store
    | .ok updatedSummary => fun uid =>
        if uid = userId then
          some { name := ((store userId).map UserDoc.name).getD "",
                 wellnessSummary := updatedSummary }
        else store uid

/-! ## The session-token middleware `verifyToken`

`verifyToken` appears in `src/routes/post.js` lines 10-44,
`src/routes/generate.js` lines 378-404 and 966-1002, `src/unnamed/part_000`
lines 102-136 and `src/unnamed/part_001` lines 8-59, all with the same
accept/reject behaviour (every rejection is HTTP 401).  `decode` is the
lenient `Buffer.from(token, 'base64').toString('utf-8')` (it never throws),
`now` is `Date.now()`, and `users uid = true` models
`admin.auth().getUser(uid)` succeeding (it throws for unknown users, which
the `catch` turns into a 401). -/

/-- Outcome of the middleware: a 401 rejection with its error message, or
acceptance with `req.user.uid` set. -/
inductive AuthResult where
  | rejected (message : String)
  | accepted (uid : String)
  deriving DecidableEq

/-- `req.headers.authorization?.split('Bearer ')[1]`. -/
def extractBearer (authHeader : Option String) : Option String :=
  match authHeader with
  | none => none
  | some h => ((splitOnList "Bearer ".toList h.toList).get? 1).map String.mk

/-- The part of the decoded token before the first `:`
(`decoded.split(':')` destructured as `[uid, timestamp]`). -/
def firstSeg (s : String) : String :=
  String.mk ((splitOnChar ':' s.toList).headD [])

/-- The part of the decoded token between the first and second `:`, if any. -/
def secondSeg (s : String) : Option String :=
  ((splitOnChar ':' s.toList).get? 1).map String.mk

/-- The expiry test `Date.now() - parseInt(timestamp) > 24 * 60 * 60 * 1000`.
When the timestamp is missing or does not parse, `parseInt` yields `NaN` and
the comparison `NaN > x` is false in JavaScript, so the token does NOT count
as expired. -/
def tokenExpired (now : Int) (decoded : String) : Bool :=
  match (secondSeg decoded).bind parseIntJS with
  | some ts => decide (now - ts > 24 * 60 * 60 * 1000)
  | none => false

/-- The `verifyToken` middleware. -/
def verifyToken (authHeader : Option String) (decode : String → String)
    (now : Int) (users : String → Bool) : AuthResult :=
  match extractBearer authHeader with
  | none => .rejected "No token provided"
  | some token =>
    if token = "" then .rejected "No token provided"
    else
      let decoded := decode token
      if firstSeg decoded = "" then .rejected "Invalid token format"
      else if tokenExpired now decoded then .rejected "Token expired"
      else if users (firstSeg decoded) then .accepted (firstSeg decoded)
      else .rejected "Invalid token"

/-! ## Posts: like and delete-comment (`src/routes/post.js`) -/

/-- A top-level comment of a post (the fields the handlers inspect). -/
structure Comment where
  id : String
  userId : String
  content : String
  deriving DecidableEq

/-- A `posts/{id}` document (the fields the handlers inspect).  A missing
`likes` / `comments` field behaves as `[]` (`post.data().likes || []`). -/
structure Post where
  userId : String
  likes : List String
  comments : List Comment
  deriving DecidableEq

/-- The transaction body of `router.post('/:id/like')`
(`src/routes/post.js` lines 150-160): append the caller's uid to `likes`
unless it is already present.  Firestore serialises the transaction, so a
set of concurrent like requests is modelled by iterating this function. -/
def likePostTx (userId : String) (post : Post) : Post :=
  if userId ∈ post.likes then post
  else { post with likes := post.likes ++ [userId] }

/-- `router.delete('/:postId/comment/:commentId')` (`src/routes/post.js`
lines 228-254) as a function of the stored post document: returns the HTTP
status and the document after the request (the handler writes `comments`
only in the success branch). -/
def deleteCommentRoute (stored : Option Post) (callerUid commentId : String) :
    Nat × Option Post :=
  match stored with
  | none => (404, none)
  | some post =>
    match post.comments.find? (fun c => c.id == commentId) with
    | none => (404, some post)
    | some comment =>
      if comment.userId ≠ callerUid then (403, some post)
      else
        (200, some { post with
          comments := post.comments.filter (fun c => !(c.id == commentId)) })

/-! ## Batched bulk delete (`src/unnamed/part_001`, `DELETE /conversations`)

Lines 188-243: the matching documents are walked in order, accumulated into
batches of at most 500 delete operations (`batchSize = 500`), the trailing
partial batch is pushed if nonempty, and all batches are committed with
`Promise.all`.  The accumulator mirrors the source's
`(batches, currentBatch, operationCount, totalDeleted)` variables. -/

/-- The body of the `conversationsQuery.docs.forEach` loop (lines 214-225). -/
def batchStep (acc : List (List String) × List String × Nat × Nat)
    (doc : String) : List (List String) × List String × Nat × Nat :=
  let cur := acc.2.1 ++ [doc]
  let opCount := acc.2.2.1 + 1
  let total := acc.2.2.2 + 1
  if 500 ≤ opCount then (acc.1 ++ [cur], [], 0, total)
  else (acc.1, cur, opCount, total)

/-- Result of the route: the committed batches (lists of document ids) and
the reported `deletedCount`. -/
structure BulkDeleteResult where
  batches : List (List String)
  deletedCount : Nat
  message : String

/-- `router.delete('/conversations')` over the list of matching document ids
(in query order).  The empty case returns early with `deletedCount: 0`. -/
def deleteConversationsRoute (docs : List String) : BulkDeleteResult :=
  if docs.isEmpty then
    { batches := [], deletedCount := 0, message := "No chat history found" }
  else
    let r := docs.foldl batchStep ([], [], 0, 0)
    { batches := if 0 < r.2.2.1 then r.1 ++ [r.2.1] else r.1,
      deletedCount := r.2.2.2,
      message := "All chat history deleted successfully" }

/-! ## The context assembler `fetchUserContext`

`src/routes/generate.js` lines 1177-1233 (third snapshot).  The mood lookup
is `where('userId','==',userId).limit(5)` with NO ordering clause, so it
returns the first five matching documents in Firestore's default (document
id) order; the code then sorts those at most five documents in JavaScript by
`(timestamp || date || '')` descending and keeps the top three.  The store
is modelled as the list of `(docId, entry)` pairs in default order. -/

/-- A `moodEntries` document (the fields the assembler reads);
`""` models a missing string field. -/
structure MoodEntry where
  userId : String
  timestamp : String
  date : String
  mood : Int
  note : String
  deriving DecidableEq

/-- The sort key `a.timestamp || a.date || ''` (line 1217). -/
def tkeyL (e : MoodEntry) : List Char :=
  if e.timestamp ≠ "" then e.timestamp.toList else e.date.toList

/-- `moodRel a b`: entry `a` is at least as recent as entry `b` under the
comparator `timeB.localeCompare(timeA)` (descending). -/
def moodRel (a b : MoodEntry) : Prop := listLe (tkeyL b) (tkeyL a) = true

instance : DecidableRel moodRel := fun a b =>
  inferInstanceAs (Decidable (listLe (tkeyL b) (tkeyL a) = true))

instance : IsTotal MoodEntry moodRel :=
  ⟨fun a b => listLe_total (tkeyL b) (tkeyL a)⟩

instance : IsTrans MoodEntry moodRel :=
  ⟨fun _ _ _ hab hbc => listLe_trans _ _ _ hbc hab⟩

/-- All mood entries of a user, in store (document id) order. -/
def moodEntriesFor (store : List (String × MoodEntry)) (uid : String) :
    List MoodEntry :=
  (store.filter (fun p => p.2.userId = uid)).map Prod.snd

/-- The `limit(5)` query (lines 1204-1207): the first five matching
documents in default order. -/
def moodQuery (store : List (String × MoodEntry)) (uid : String) :
    List MoodEntry :=
  ((store.filter (fun p => p.2.userId = uid)).take 5).map Prod.snd

/-- Lines 1214-1221: stable sort of the query result, descending by
`tkeyL`, then `slice(0, 3)`. -/
def selectRecent (docs : List MoodEntry) : List MoodEntry :=
  (List.insertionSort moodRel docs).take 3

/-- Line 1225: one formatted mood line. -/
def formatMood (e : MoodEntry) : String :=
  "- Date: " ++ e.date ++ ", Mood: " ++ toString e.mood ++ "/10, Note: \"" ++
  e.note ++ "\""

/-- The `name` produced by lines 1191-1198: first word of `users/{uid}.name`
when present and nonempty, else `'Friend'`. -/
def contextName (users : String → Option UserDoc) (uid : String) : String :=
  match users uid with
  | some ud => if ud.name ≠ "" then firstWord ud.name else "Friend"
  | none => "Friend"

/-- The `wellnessSummary` produced by lines 1191-1201. -/
def contextSummary (users : String → Option UserDoc) (uid : String) : String :=
  match users uid with
  | some ud => ud.wellnessSummary
  | none => ""

/-- The value `fetchUserContext` resolves with. -/
structure UserContext where
  name : String
  recentMoods : String
  wellnessSummary : String
  deriving DecidableEq

/-- `fetchUserContext` (lines 1177-1233).  `dbAvailable = false` models
`getFirestore()` returning nothing (line 1182); `lookupError = true` models
any exception thrown during the lookups, which the `catch` (line 1230) turns
into the fixed fallback value — the function never propagates an error. -/
def fetchUserContext (dbAvailable lookupError : Bool)
    (users : String → Option UserDoc) (store : List (String × MoodEntry))
    (userId : String) : UserContext :=
  if userId = "" ∨ userId = "anonymous" then
    { name := "Friend", recentMoods := "", wellnessSummary := "" }
  else if ¬ dbAvailable then
    { name := "Friend", recentMoods := "No recent data", wellnessSummary := "" }
  else if lookupError then
    { name := "Friend", recentMoods := "Error fetching data.", wellnessSummary := "" }
  else
    let name := contextName users userId
    let summary := contextSummary users userId
    let docs := moodQuery store userId
    if docs.isEmpty then
      { name := name, recentMoods := "No recent mood logs.",
        wellnessSummary := summary }
    else
      { name := name,
        recentMoods := String.intercalate "\n" ((selectRecent docs).map formatMood),
        wellnessSummary := summary }

/-! ## Journal entry creation (`src/unnamed/part_000`, lines 522-566) -/

/-- A stored `journalEntries` document. -/
structure JournalEntry where
  userId : String
  title : String
  content : String
  /-- `none` models the stored JSON `null` -/
  moodScore : Option Int
  tags : List String
  isFavorite : Bool
  deriving DecidableEq

/-- Outcome of `POST /` on the journal router: a 400 with its message, or a
201 with the stored entry. -/
inductive JournalCreateResult where
  | badRequest (message : String)
  | created (entry : JournalEntry)
  deriving DecidableEq

/-- JavaScript numeric truthiness (`moodScore &&`): `0` is falsy; an absent
field is falsy.  (`NaN` is not representable here.) -/
def jsTruthyNum : Option Int → Bool
  | none => false
  | some n => decide (n ≠ 0)

/-- The journal `router.post('/')` handler (lines 522-566), after a
successful `verifyToken`.  An empty `title`/`content` models the falsy
check on line 532.  `parseInt` applied to a number that is already an
integer is the identity, so the stored score is the given score when
truthy and `null` otherwise (line 545). -/
def createJournalEntry (uid title content : String) (moodScore : Option Int)
    (tags : List String) (isFavorite : Bool) : JournalCreateResult :=
  if title = "" ∨ content = "" then
    .badRequest "Title and content are required"
  else if jsTruthyNum moodScore ∧
      (moodScore.getD 0 < 1 ∨ 10 < moodScore.getD 0) then
    .badRequest "Mood score must be between 1 and 10"
  else
    .created
      { userId := uid
        title := trimS title
        content := content
        moodScore := if jsTruthyNum moodScore then moodScore else none
        tags := tags.filter (fun t => !(t == "") && !(trimS t == ""))
        isFavorite := isFavorite }

/-! ## Concrete fixtures used by the closed instance theorems -/

/-- A mood entry of user `"u"` with the given timestamp. -/
def moodFix (ts : String) : MoodEntry :=
  { userId := "u", timestamp := ts, date := "", mood := 5, note := "" }

/-- A two-entry mood store for user `"u"`. -/
def moodStoreSmall : List (String × MoodEntry) :=
  [("d1", moodFix "2024-01-01"), ("d2", moodFix "2024-01-02")]

/-- A six-entry mood store for user `"u"`, newest entry last in document-id
order: the `limit(5)` query returns only the first five. -/
def moodStoreSix : List (String × MoodEntry) :=
  [("d1", moodFix "2024-01-01"), ("d2", moodFix "2024-01-02"),
   ("d3", moodFix "2024-01-03"), ("d4", moodFix "2024-01-04"),
   ("d5", moodFix "2024-01-05"), ("d6", moodFix "2024-01-06")]

/-! # Theorems for the claims -/

/-- Claim C1: for every chat request whose message the crisis classifier
flags, the chat endpoint returns `crisis = true` with the fixed canned
safety message verbatim plus the fixed helpline reference, logs the
exchange with `crisis = true`, and never invokes the response generator
(the external completion call) on that turn. -/
theorem chat_crisis_short_circuit (message : String) (userId? : Option String)
    (llm : Except Unit String) (h : detectCrisis message = true) :
    handleChatV1 message userId? llm =
      { status := 200, crisis := true, reply := some crisisReplyV1,
        helplines := [("india", "1800-599-0019")], buttons := false,
        generatorInvoked := false,
        logged := some (userId?.getD "anonymous", message, true),
        summaryInvoked := false } := by
  have hne : message ≠ "" := by
    intro e
    rw [e] at h
    exact absurd h (by decide)
  simp [handleChatV1, hne, h]

/-- Witness for C1 at the spec's own example input `"I want to die"`. -/
theorem chat_crisis_short_circuit_witness :
    handleChatV1 "I want to die" none (.ok "hello") =
      { status := 200, crisis := true, reply := some crisisReplyV1,
        helplines := [("india", "1800-599-0019")], buttons := false,
        generatorInvoked := false,
        logged := some ("anonymous", "I want to die", true),
        summaryInvoked := false } :=
  chat_crisis_short_circuit "I want to die" none (.ok "hello") (by decide)

/-- Claim C2 (amended): the regex classifier of `src/routes/generate.js`
(lines 636-642) fires only on word-boundary-anchored occurrences of its
phrases — any detection exhibits a phrase occurrence with word boundaries on
both sides — and in particular a message containing "hopelessly" alone is
not flagged.  (The substring classifier of `src/unnamed/part_002` does NOT
have this property; see the counterexample.) -/
theorem detect_crisis_word_boundary :
    (∀ msg : String, detectCrisisWB msg = true →
      ∃ p ∈ crisisPhrasesWB, ∃ i,
        boundedMatch (msg.toList.map lowerChar) (p.toList.map lowerChar) i = true)
    ∧ detectCrisisWB "I feel hopelessly stuck" = false := by
  constructor
  · intro msg h
    simp only [detectCrisisWB, crisisMatch, List.any_eq_true] at h
    obtain ⟨i, -, p, hp, hm⟩ := h
    exact ⟨p, hp, i, hm⟩
  · decide

/-- Counterexample to C2 as stated: the crisis classifier of
`src/unnamed/part_002` tests plain substring containment, so the message
`"hopelessly"` — in which every configured keyword occurrence ("hopeless")
is strictly inside a longer word, as the second conjunct certifies — is
flagged as a crisis. -/
theorem detect_crisis_substring_counterexample :
    detectCrisisKeywords "hopelessly" = true
    ∧ crisisMatch crisisKeywords "hopelessly" = false := by
  exact ⟨by decide, by decide⟩

/-- Witness for C2: a genuine crisis message is detected, and the detection
is certified by a word-boundary-anchored occurrence. -/
theorem detect_crisis_word_boundary_witness :
    ∃ p ∈ crisisPhrasesWB, ∃ i,
      boundedMatch ("I want to end it all".toList.map lowerChar)
        (p.toList.map lowerChar) i = true :=
  detect_crisis_word_boundary.1 "I want to end it all" (by decide)

/-- Counterexample to C3 as stated: a token that decodes to `"alice"` — no
`:` separator, hence no `uid:timestamp` pair at all, as the second conjunct
certifies — is nevertheless accepted when user `"alice"` exists, because
`parseInt(undefined)` is `NaN` and `NaN > 24h` is false, so the expiry check
passes vacuously.  (`"YWxpY2U="` is the base64 encoding of `"alice"`.) -/
theorem token_auth_counterexample :
    verifyToken (some "Bearer YWxpY2U=")
        (fun s => if s = "YWxpY2U=" then "alice" else "") 1700000000000
        (fun u => u == "alice")
      = .accepted "alice"
    ∧ secondSeg "alice" = none := by
  exact ⟨by decide, by decide⟩

/-- Claim C3 (amended): the bearer check accepts a token iff a token string
follows `"Bearer "` in the header, the part of its base64 decoding before
the first `:` is a nonempty uid that the auth provider knows, and the token
is not expired — where a token counts as expired only when its timestamp
part parses to a number `ts` with `now - ts > 24h`; a missing or
non-numeric timestamp never counts as expired.  Every rejection is a 401. -/
theorem token_auth_accepts_iff (authHeader : Option String)
    (decode : String → String) (now : Int) (users : String → Bool) :
    (∃ uid, verifyToken authHeader decode now users = .accepted uid)
    ↔ ∃ token, extractBearer authHeader = some token ∧ token ≠ ""
        ∧ firstSeg (decode token) ≠ ""
        ∧ tokenExpired now (decode token) = false
        ∧ users (firstSeg (decode token)) = true := by
  constructor
  · rintro ⟨uid, hacc⟩
    unfold verifyToken at hacc
    cases hE : extractBearer authHeader with
    | none => rw [hE] at hacc; exact absurd hacc (by simp)
    | some token =>
      rw [hE] at hacc
      dsimp only at hacc
      by_cases ht : token = ""
      · rw [if_pos ht] at hacc; exact absurd hacc (by simp)
      rw [if_neg ht] at hacc
      by_cases hf : firstSeg (decode token) = ""
      · rw [if_pos hf] at hacc; exact absurd hacc (by simp)
      rw [if_neg hf] at hacc
      by_cases hx : tokenExpired now (decode token) = true
      · rw [if_pos hx] at hacc; exact absurd hacc (by simp)
      rw [if_neg hx] at hacc
      by_cases hu : users (firstSeg (decode token)) = true
      · exact ⟨token, rfl, ht, hf, by simpa using hx, hu⟩
      · rw [if_neg hu] at hacc; exact absurd hacc (by simp)
  · rintro ⟨token, htok, ht, hf, hx, hu⟩
    refine ⟨firstSeg (decode token), ?_⟩
    unfold verifyToken
    rw [htok]
    dsimp only
    rw [if_neg ht, if_neg hf, if_neg (by simp [hx]), if_pos hu]

/-- Witness for C3 (amended): a well-formed, fresh token for an existing
user is accepted.  (`"dXNlcjE6MTAw"` is the base64 encoding of
`"user1:100"`.) -/
theorem token_auth_accepts_iff_witness :
    ∃ uid, verifyToken (some "Bearer dXNlcjE6MTAw")
        (fun s => if s = "dXNlcjE6MTAw" then "user1:100" else "") 200
        (fun u => u == "user1") = .accepted uid :=
  (token_auth_accepts_iff _ _ _ _).mpr
    ⟨"dXNlcjE6MTAw", by decide, by decide, by decide, by decide, by decide⟩

/-- Claim C4: liking a post is idempotent per user.  Firestore serialises
the like transaction, so any number of (possibly concurrent) like requests
by one user is the iterate of the transaction body: starting from a post the
user has not liked, after `n ≥ 1` requests the `likes` array contains
exactly one entry of that user's id; and a like request by a user already in
the array leaves the post unchanged. -/
theorem like_post_idempotent :
    (∀ (uid : String) (p : Post) (n : Nat), 1 ≤ n → p.likes.count uid = 0 →
        ((likePostTx uid)^[n] p).likes.count uid = 1)
    ∧ (∀ (uid : String) (p : Post), uid ∈ p.likes → likePostTx uid p = p) := by
  have hmem : ∀ (uid : String) (p : Post), uid ∈ p.likes → likePostTx uid p = p := by
    intro uid p h
    simp [likePostTx, h]
  have hfix : ∀ (uid : String) (k : Nat) (p : Post), uid ∈ p.likes →
      (likePostTx uid)^[k] p = p := by
    intro uid k
    induction k with
    | zero => intro p _; rfl
    | succ m ih =>
      intro p h
      rw [Function.iterate_succ_apply, hmem uid p h]
      exact ih p h
  refine ⟨?_, hmem⟩
  intro uid p n hn h0
  obtain ⟨m, rfl⟩ : ∃ m, n = m + 1 := ⟨n - 1, by omega⟩
  have hnot : uid ∉ p.likes := List.count_eq_zero.mp h0
  have hstep : likePostTx uid p = { p with likes := p.likes ++ [uid] } := by
    simp [likePostTx, hnot]
  rw [Function.iterate_succ_apply, hstep, hfix uid m _ (by simp)]
  simp [List.count_append, h0]

/-- Witness for C4: three successive likes by `"u1"` on a fresh post leave a
single `"u1"` entry, and a like on a post already liked by `"u1"` is a
no-op. -/
theorem like_post_idempotent_witness :
    ((likePostTx "u1")^[3] (⟨"author", [], []⟩ : Post)).likes.count "u1" = 1
    ∧ likePostTx "u1" (⟨"author", ["u1"], []⟩ : Post) = ⟨"author", ["u1"], []⟩ :=
  ⟨like_post_idempotent.1 "u1" ⟨"author", [], []⟩ 3 (by decide) (by decide),
   like_post_idempotent.2 "u1" ⟨"author", ["u1"], []⟩ (by decide)⟩

/-- Claim C5: a delete-comment request for an existing comment whose
`userId` differs from the caller's uid returns 403 and leaves the stored
post — in particular its `comments` array — unchanged (the handler reaches
no write). -/
theorem delete_comment_forbidden (post : Post) (callerUid commentId : String)
    (c : Comment)
    (hfind : post.comments.find? (fun x => x.id == commentId) = some c)
    (hown : c.userId ≠ callerUid) :
    deleteCommentRoute (some post) callerUid commentId = (403, some post) := by
  simp [deleteCommentRoute, hfind, hown]

/-- Witness for C5: a concrete foreign-comment delete attempt. -/
theorem delete_comment_forbidden_witness :
    deleteCommentRoute (some ⟨"owner", [], [⟨"c1", "owner", "hi"⟩]⟩)
        "intruder" "c1"
      = (403, some ⟨"owner", [], [⟨"c1", "owner", "hi"⟩]⟩) :=
  delete_comment_forbidden ⟨"owner", [], [⟨"c1", "owner", "hi"⟩]⟩ "intruder"
    "c1" ⟨"c1", "owner", "hi"⟩ (by decide) (by decide)

/-- Invariant of the batching loop of `DELETE /conversations`: starting from
an accumulator whose operation counter equals the current batch's length
(below 500) and whose closed batches all have exactly 500 operations, the
fold preserves those facts, the processed documents are exactly the closed
batches plus the current batch, and `totalDeleted` counts every document. -/
theorem batchFold_spec :
    ∀ (docs : List String) (bs : List (List String)) (cur : List String)
      (k t : Nat), k = cur.length → cur.length < 500 →
      (∀ b ∈ bs, b.length = 500) →
      (docs.foldl batchStep (bs, cur, k, t)).1.flatten
          ++ (docs.foldl batchStep (bs, cur, k, t)).2.1
        = bs.flatten ++ cur ++ docs
      ∧ (docs.foldl batchStep (bs, cur, k, t)).2.2.1
          = (docs.foldl batchStep (bs, cur, k, t)).2.1.length
      ∧ (docs.foldl batchStep (bs, cur, k, t)).2.1.length < 500
      ∧ (∀ b ∈ (docs.foldl batchStep (bs, cur, k, t)).1, b.length = 500)
      ∧ (docs.foldl batchStep (bs, cur, k, t)).2.2.2 = t + docs.length := by
  intro docs
  induction docs with
  | nil =>
    intro bs cur k t hk hlt hbs
    subst hk
    exact ⟨by simp, rfl, hlt, hbs, by simp⟩
  | cons d ds ih =>
    intro bs cur k t hk hlt hbs
    subst hk
    rw [List.foldl_cons]
    by_cases h5 : 500 ≤ cur.length + 1
    · have hstep : batchStep (bs, cur, cur.length, t) d
          = (bs ++ [cur ++ [d]], [], 0, t + 1) := by
        simp [batchStep, h5]
      rw [hstep]
      have hbs' : ∀ b ∈ bs ++ [cur ++ [d]], b.length = 500 := by
        intro b hb
        rcases List.mem_append.mp hb with hb | hb
        · exact hbs b hb
        · rw [List.mem_singleton.mp hb]
          simp
          omega
      obtain ⟨g1, g2, g3, g4, g5⟩ :=
        ih (bs ++ [cur ++ [d]]) [] 0 (t + 1) rfl (by simp) hbs'
      refine ⟨?_, g2, g3, g4, by rw [g5, List.length_cons]; omega⟩
      rw [g1]
      simp
    · have hstep : batchStep (bs, cur, cur.length, t) d
          = (bs, cur ++ [d], cur.length + 1, t + 1) := by
        simp [batchStep, h5]
      rw [hstep]
      have hlen : cur.length + 1 = (cur ++ [d]).length := by simp
      rw [hlen]
      obtain ⟨g1, g2, g3, g4, g5⟩ :=
        ih bs (cur ++ [d]) (cur ++ [d]).length (t + 1) rfl (by simp; omega) hbs
      refine ⟨?_, g2, g3, g4, by rw [g5, List.length_cons]; omega⟩
      rw [g1]
      simp

/-- Claim C6: the bulk delete of a user's conversations partitions the `N`
matching documents into committed batches of at most 500 operations whose
concatenation is exactly the matched document list (so exactly `N`
documents are deleted, each once), and reports `deletedCount = N` — for
every `N`, including `N` larger than one batch's capacity. -/
theorem conversations_bulk_delete (docs : List String) :
    (deleteConversationsRoute docs).batches.flatten = docs
    ∧ (deleteConversationsRoute docs).deletedCount = docs.length
    ∧ ∀ b ∈ (deleteConversationsRoute docs).batches, b.length ≤ 500 := by
  by_cases hd : docs.isEmpty
  · have hnil : docs = [] := by
      cases docs with
      | nil => rfl
      | cons x xs => exact absurd hd (by simp)
    subst hnil
    refine ⟨rfl, rfl, ?_⟩
    intro b hb
    simp [deleteConversationsRoute] at hb
  · obtain ⟨g1, g2, g3, g4, g5⟩ := batchFold_spec docs [] [] 0 0 rfl (by simp) (by simp)
    unfold deleteConversationsRoute
    rw [if_neg hd]
    dsimp only
    refine ⟨?_, by simpa using g5, ?_⟩
    · by_cases hc : 0 < (docs.foldl batchStep ([], [], 0, 0)).2.2.1
      · rw [if_pos hc, List.flatten_append]
        simpa using g1
      · rw [if_neg hc]
        have hz : (docs.foldl batchStep ([], [], 0, 0)).2.1.length = 0 := by omega
        have hnil : (docs.foldl batchStep ([], [], 0, 0)).2.1 = [] :=
          List.length_eq_zero.mp hz
        rw [hnil, List.append_nil] at g1
        simpa using g1
    · intro b hb
      by_cases hc : 0 < (docs.foldl batchStep ([], [], 0, 0)).2.2.1
      · rw [if_pos hc] at hb
        rcases List.mem_append.mp hb with hb | hb
        · rw [g4 b hb]
        · rw [List.mem_singleton.mp hb]
          omega
      · rw [if_neg hc] at hb
        rw [g4 b hb]

/-- Witness for C6 at `N = 501`, one more than a single batch's capacity:
the report says 501, the batches cover all 501 documents, and every batch is
within the 500-operation limit. -/
theorem conversations_bulk_delete_witness :
    (deleteConversationsRoute (List.replicate 501 "c")).deletedCount = 501
    ∧ (deleteConversationsRoute (List.replicate 501 "c")).batches.flatten
        = List.replicate 501 "c"
    ∧ (deleteConversationsRoute (List.replicate 501 "c")).batches.all
        (fun b => decide (b.length ≤ 500)) = true := by
  refine ⟨?_, (conversations_bulk_delete _).1, ?_⟩
  · rw [(conversations_bulk_delete _).2.1, List.length_replicate]
  · exact List.all_eq_true.mpr
      (fun b hb => decide_eq_true ((conversations_bulk_delete _).2.2 b hb))

/-- Claim C7 (amended): for an authenticated user whose `limit(5)` mood
query is nonempty, the context assembler renders exactly
`selectRecent (moodQuery ...)`: at most three entries — the most recent
*among the at most five documents the unordered `limit(5)` query returns* —
sorted descending by their timestamp/date key, ties broken arbitrarily.
Because the query has no ordering clause, these need not be the user's three
most recent entries overall; see the counterexample. -/
theorem context_moods_top3_of_query (users : String → Option UserDoc)
    (store : List (String × MoodEntry)) (uid : String)
    (h1 : uid ≠ "") (h2 : uid ≠ "anonymous")
    (hne : moodQuery store uid ≠ []) :
    (fetchUserContext true false users store uid).recentMoods
      = String.intercalate "\n" ((selectRecent (moodQuery store uid)).map formatMood)
    ∧ (selectRecent (moodQuery store uid)).length
        = min 3 (moodQuery store uid).length
    ∧ List.Sorted moodRel (selectRecent (moodQuery store uid))
    ∧ ∀ y ∈ moodQuery store uid,
        y ∈ selectRecent (moodQuery store uid)
        ∨ ∀ x ∈ selectRecent (moodQuery store uid), moodRel x y := by
  refine ⟨?_, ?_, ?_, ?_⟩
  · have hie : (moodQuery store uid).isEmpty = false := by
      cases hq : moodQuery store uid with
      | nil => exact absurd hq hne
      | cons a l => simp
    simp [fetchUserContext, h1, h2, hie]
  · unfold selectRecent
    rw [List.length_take, (List.perm_insertionSort moodRel _).length_eq]
  · exact List.Pairwise.sublist (List.take_sublist _ _)
      (List.sorted_insertionSort moodRel _)
  · intro y hy
    have hys : y ∈ List.insertionSort moodRel (moodQuery store uid) :=
      (List.perm_insertionSort moodRel _).mem_iff.mpr hy
    rw [← List.take_append_drop 3 (List.insertionSort moodRel (moodQuery store uid))]
      at hys
    rcases List.mem_append.mp hys with h | h
    · exact Or.inl h
    · right
      intro x hx
      have hp := List.sorted_insertionSort moodRel (moodQuery store uid)
      rw [← List.take_append_drop 3 (List.insertionSort moodRel (moodQuery store uid))]
        at hp
      exact (List.pairwise_append.mp hp).2.2 x hx y h

/-- Counterexample to C7 as stated: with six mood entries for user `"u"`
(newest last in document-id order), the most recent entry overall is among
the user's entries but is not returned — the `limit(5)` query drops it
before the sort, and every returned entry is strictly older than it. -/
theorem context_moods_limit5_counterexample :
    moodFix "2024-01-06" ∈ moodEntriesFor moodStoreSix "u"
    ∧ selectRecent (moodQuery moodStoreSix "u")
        = [moodFix "2024-01-05", moodFix "2024-01-04", moodFix "2024-01-03"]
    ∧ moodFix "2024-01-06" ∉ selectRecent (moodQuery moodStoreSix "u")
    ∧ (selectRecent (moodQuery moodStoreSix "u")).all
        (fun x => listLe (tkeyL x) (tkeyL (moodFix "2024-01-06"))
          && !(listLe (tkeyL (moodFix "2024-01-06")) (tkeyL x))) = true := by
  exact ⟨by decide, by decide, by decide, by decide⟩

/-- Witness for C7 (amended) on a two-entry store. -/
theorem context_moods_top3_witness :
    (selectRecent (moodQuery moodStoreSmall "u")).length
        = min 3 (moodQuery moodStoreSmall "u").length
    ∧ List.Sorted moodRel (selectRecent (moodQuery moodStoreSmall "u")) :=
  ⟨(context_moods_top3_of_query (fun _ => none) moodStoreSmall "u"
      (by decide) (by decide) (by decide)).2.1,
   (context_moods_top3_of_query (fun _ => none) moodStoreSmall "u"
      (by decide) (by decide) (by decide)).2.2.1⟩

/-- Claim C8: the context assembler never propagates an error.  For an
authenticated user: when the mood query is empty it resolves with the
documented placeholder `'No recent mood logs.'` rather than failing, and
when any lookup throws it resolves with the default context (`'Friend'`,
empty summary) produced by the `catch` instead of raising. -/
theorem context_fetch_never_fails (users : String → Option UserDoc)
    (store : List (String × MoodEntry)) (uid : String)
    (h1 : uid ≠ "") (h2 : uid ≠ "anonymous") :
    (moodQuery store uid = [] →
      (fetchUserContext true false users store uid).recentMoods
        = "No recent mood logs.")
    ∧ fetchUserContext true true users store uid
        = { name := "Friend", recentMoods := "Error fetching data.",
            wellnessSummary := "" } := by
  constructor
  · intro hq
    simp [fetchUserContext, h1, h2, hq]
  · simp [fetchUserContext, h1, h2]

/-- Witness for C8: user `"alice"` with no mood entries and no profile gets
the placeholder, and a throwing lookup gets the catch-all default. -/
theorem context_fetch_never_fails_witness :
    (fetchUserContext true false (fun _ => none) [] "alice").recentMoods
      = "No recent mood logs."
    ∧ fetchUserContext true true (fun _ => none) [] "alice"
        = { name := "Friend", recentMoods := "Error fetching data.",
            wellnessSummary := "" } :=
  ⟨(context_fetch_never_fails (fun _ => none) [] "alice"
      (by decide) (by decide)).1 rfl,
   (context_fetch_never_fails (fun _ => none) [] "alice"
      (by decide) (by decide)).2⟩

/-- Claim C9: the wellness-summary update runs only for authenticated,
non-anonymous users.  For a chat turn whose `userId` is absent (defaulted to
`'anonymous'`) or equal to `'anonymous'`: the route's guard never invokes
`updateUserSummary`, and `updateUserSummary` itself (whose first line
returns for falsy or anonymous ids) leaves the stored `users` collection —
in particular every `wellnessSummary` field — unchanged even if invoked. -/
theorem summary_update_skips_anonymous (userId? : Option String)
    (message : String) (llmChat llmSum : Except Unit String) (db : Bool)
    (store : String → Option UserDoc)
    (h : userId? = none ∨ userId? = some "anonymous") :
    (handleChatV3 message userId? llmChat).summaryInvoked = false
    ∧ updateUserSummary (userId?.getD "anonymous") db llmSum store = store := by
  have huid : userId?.getD "anonymous" = "anonymous" := by
    rcases h with h | h <;> simp [h]
  constructor
  · simp only [handleChatV3, huid]
    split
    · rfl
    · split
      · rfl
      · cases llmChat <;> simp
  · simp [updateUserSummary, huid]

/-- Witness for C9 on a concrete anonymous turn. -/
theorem summary_update_skips_anonymous_witness :
    (handleChatV3 "hello there" (some "anonymous") (.ok "hi")).summaryInvoked
        = false
    ∧ updateUserSummary "anonymous" true (.ok "new summary") (fun _ => none)
        = (fun _ => none) :=
  summary_update_skips_anonymous (some "anonymous") "hello there" (.ok "hi")
    (.ok "new summary") true (fun _ => none) (Or.inr rfl)

/-- Claim C10 (implicit in the code): a journal entry with `moodScore = 0`
is NOT rejected by the range validation — `0` is falsy, so
`if (moodScore && (moodScore < 1 || moodScore > 10))` skips the check — and
the request succeeds (HTTP 201) with the stored entry's `moodScore` equal to
`null`. -/
theorem journal_moodscore_zero_not_rejected (uid title content : String)
    (tags : List String) (fav : Bool) (h1 : title ≠ "") (h2 : content ≠ "") :
    createJournalEntry uid title content (some 0) tags fav
      = .created { userId := uid, title := trimS title, content := content,
                   moodScore := none,
                   tags := tags.filter (fun t => !(t == "") && !(trimS t == "")),
                   isFavorite := fav } := by
  unfold createJournalEntry
  rw [if_neg (by simp [h1, h2]), if_neg (by simp [jsTruthyNum])]
  simp [jsTruthyNum]

/-- Witness for C10 on a concrete request body. -/
theorem journal_moodscore_zero_witness :
    createJournalEntry "u7" "Day one" "felt ok" (some 0) [] false
      = .created { userId := "u7", title := "Day one", content := "felt ok",
                   moodScore := none, tags := [], isFavorite := false } :=
  (journal_moodscore_zero_not_rejected "u7" "Day one" "felt ok" [] false
      (by decide) (by decide)).trans (by decide)

end MHC
